import Mathlib

/-!
Verification of the miniflux feed refresh/ingestion core.

This file gives a shallow embedding of the core units of the repository:

* `FeedForm.Merge` (ui/form/feed.go),
* `scrapContent` and `getPredefinedScraperRules` (reader/scraper),
* `FeedProcessor.Process` (reader/processor/processor.go),
* `Handler.CreateFeed` and `Handler.RefreshFeed` (reader/feed handler),

together with theorems settling the stated properties of the spec.

External collaborators (the HTTP client response classification, body
encoding normalization, the feed-document parser, the rewrite engine, the
sanitizer, icon discovery, the storage layer and the goquery selector
engine) are modelled as oracle outcomes supplied through environment
records; the persisted effects of one invocation are recorded as an
explicit list of storage calls.
-/

namespace Miniflux

/-- Model of `model.Entry` restricted to the fields the core reads or
writes: the dedup identity `url` and the mutable `content`. -/
structure Entry where
  url : String
  content : String
deriving DecidableEq, Repr

/-- Model of `model.Feed` restricted to the columns read and written by the
core and by `Storage.UpdateFeed` (storage/feed.go). `Category.ID` is
flattened to `categoryID`; `CheckedAt` is an abstract integer timestamp;
`Cookies` is an association list standing for the Go map's contents. -/
structure Feed where
  id : Int
  userID : Int
  feedURL : String
  siteURL : String
  title : String
  etagHeader : String
  lastModifiedHeader : String
  checkedAt : Int
  parsingErrorCount : Int
  parsingErrorMsg : String
  scraperRules : String
  rewriteRules : String
  cookies : List (String × String)
  crawler : Bool
  username : String
  password : String
  categoryID : Int
deriving DecidableEq, Repr

/-- The taxonomy of `errors.LocalizedError` values produced by the handler
(reader/feed handler error templates), plus `parseError` for the errors of
the external feed parser and `storageError` for plain errors bubbled up
from the storage collaborator. -/
inductive LocalizedError where
  | requestFailed (cause : String)
  | serverFailure (statusCode : Int)
  | resourceNotFound
  | emptyFeed
  | encodingError (cause : String)
  | duplicateFeed (url : String)
  | categoryNotFound
  | feedNotFound (id : Int)
  | parseError (msg : String)
  | storageError (msg : String)
deriving DecidableEq, Repr

/-- The English template text of each error, mirroring the `err*` template
strings of the handler. -/
def LocalizedError.render : LocalizedError → String
  | .requestFailed cause => "Unable to execute request: " ++ cause
  | .serverFailure statusCode =>
      "Unable to fetch feed (Status Code = " ++ toString statusCode ++ ")"
  | .resourceNotFound =>
      "Resource not found (404), this feed does not exist anymore, check the feed URL"
  | .emptyFeed => "This feed is empty"
  | .encodingError cause => "Unable to normalize encoding: " ++ cause
  | .duplicateFeed url => "This feed already exists (" ++ url ++ ")"
  | .categoryNotFound => "Category not found for this user"
  | .feedNotFound id => "Feed " ++ toString id ++ " not found"
  | .parseError msg => msg
  | .storageError msg => msg

/-- Modelled from the spec: the localization collaborator
(`LocalizedError.Localize(language)`) renders the error template for the
given language; we tag the rendered template with the language. -/
def LocalizedError.localize (e : LocalizedError) (lang : String) : String :=
  "[" ++ lang ++ "] " ++ e.render

end Miniflux

namespace Miniflux

/-! ## ui/form/feed.go: FeedForm.Merge -/

/-- Model of `form.FeedForm` (ui/form/feed.go). -/
structure FeedForm where
  feedURL : String
  siteURL : String
  title : String
  scraperRules : String
  rewriteRules : String
  cookies : List (String × String)
  crawler : Bool
  categoryID : Int
  username : String
  password : String
deriving DecidableEq, Repr

/-- Embedding of `FeedForm.Merge` (ui/form/feed.go): field-by-field update
of the given feed from the form, forcing the error state to zero/empty. -/
def FeedForm.Merge (f : FeedForm) (feed : Feed) : Feed :=
  { feed with
    categoryID := f.categoryID
    title := f.title
    siteURL := f.siteURL
    feedURL := f.feedURL
    scraperRules := f.scraperRules
    rewriteRules := f.rewriteRules
    cookies := f.cookies
    crawler := f.crawler
    parsingErrorCount := 0
    parsingErrorMsg := ""
    username := f.username
    password := f.password }

/-! ## reader/scraper: scrapContent and the predefined-rule lookup -/

/-- A node matched by the selector rule, as handed over by the external
goquery selector engine: its tag name (what `Selection.Is` tests), its own
inner HTML and its parent's inner HTML. -/
structure DomNode where
  tag : String
  innerHTML : String
  parentInnerHTML : String
deriving DecidableEq, Repr

/-- The fragment a single matched node contributes to the output, in the
words of the spec: its inner HTML, except that image and embedded-frame
nodes contribute the parent's inner HTML. -/
def DomNode.specFragment (s : DomNode) : String :=
  if s.tag = "img" ∨ s.tag = "iframe" then s.parentInnerHTML else s.innerHTML

/-- Embedding of `scrapContent` (reader/scraper): the goquery
`Find(rules).Each` traversal is modelled by the list of matched nodes in
document order; the loop accumulates, for each node, its inner HTML, or the
parent's inner HTML for `img`/`iframe` nodes. -/
def scrapContent (matched : List DomNode) : String :=
  matched.foldl
    (fun contents s =>
      contents ++
        (if s.tag = "img" ∨ s.tag = "iframe" then s.parentInnerHTML else s.innerHTML))
    ""

/-- Ordered concatenation, with no separators, of the per-node fragments:
the output shape asserted by the spec. -/
def specScrapedOutput : List DomNode → String
  | [] => ""
  | s :: rest => s.specFragment ++ specScrapedOutput rest

/-- Tests whether the character list `s` starts with `pat`. -/
def charsStartWith : List Char → List Char → Bool
  | _, [] => true
  | [], _ :: _ => false
  | a :: as, b :: bs => a == b && charsStartWith as bs

/-- Tests whether `pat` occurs contiguously inside `s`. -/
def charsContain : List Char → List Char → Bool
  | [], pat => pat.isEmpty
  | a :: as, pat => charsStartWith (a :: as) pat || charsContain as pat

/-- Embedding of `strings.Contains(s, sub)`. -/
def strContains (s sub : String) : Bool :=
  charsContain s.toList sub.toList

/-- Drops everything up to and including the first scheme separator
`://`; returns `none` when no separator occurs. -/
def charsAfterScheme : List Char → Option (List Char)
  | [] => none
  | c :: cs =>
      if charsStartWith (c :: cs) [':', '/', '/'] then some (cs.drop 2)
      else charsAfterScheme cs

/-- Takes characters up to the first slash. -/
def charsUntilSlash : List Char → List Char
  | [] => []
  | c :: cs => if c == '/' then [] else c :: charsUntilSlash cs

/-- Modelled from the spec: `url.Domain` (package miniflux.app/url, not
under src/) returns the host of the URL — the part after the scheme
separator and before the first slash. -/
def urlDomainOf (websiteURL : String) : String :=
  let cs := websiteURL.toList
  String.mk (charsUntilSlash ((charsAfterScheme cs).getD cs))

/-- Embedding of `getPredefinedScraperRules` (reader/scraper): iterate over
the predefined-rule table, returning the rules of the first entry whose
domain key is contained in the URL's host, else the empty string. The
source iterates a Go map (`range predefinedRules`, a table not under src/),
whose enumeration order is unspecified; the table and one enumeration order
of it are therefore taken as the `table` parameter. -/
def getPredefinedScraperRules : List (String × String) → String → String
  | [], _ => ""
  | (domain, rules) :: rest, websiteURL =>
      if strContains (urlDomainOf websiteURL) domain then rules
      else getPredefinedScraperRules rest websiteURL

/-! ## reader/processor/processor.go: FeedProcessor.Process -/

/-- The collaborators consumed by `FeedProcessor.Process`, as oracles:
`entryURLExists` is `store.EntryURLExists(userID, url)` for the fixed user
of the processor; `scrapeFetch url rules cookies` is the outcome of
`scraper.Fetch` (`none` models its error return); `rewrite url content
rules` is `rewrite.Rewriter`; `sanitize url content` is
`sanitizer.Sanitize`. -/
structure ProcEnv where
  entryURLExists : String → Bool
  scrapeFetch : String → String → List (String × String) → Option String
  rewrite : String → String → String → String
  sanitize : String → String → String

/-- Embedding of one iteration of the loop body of `FeedProcessor.Process`
(reader/processor/processor.go): the crawl decision followed by the two
unconditional transformations. The second component records the URLs for
which a crawl fetch was issued. -/
def processEntry (p : ProcEnv) (scraperRules rewriteRules : String)
    (cookies : List (String × String)) (crawler : Bool) (e : Entry) :
    Entry × List String :=
  let step1 : String × List String :=
    if crawler then
      if p.entryURLExists e.url then (e.content, [])
      else
        match p.scrapeFetch e.url scraperRules cookies with
        | none => (e.content, [e.url])
        | some content => (content, [e.url])
    else (e.content, [])
  let rewritten := p.rewrite e.url step1.1 rewriteRules
  ({ e with content := p.sanitize e.url rewritten }, step1.2)

/-- Embedding of `FeedProcessor.Process`: the loop over the feed's entries,
returning the mutated entries together with all crawl-fetched URLs. -/
def Process (p : ProcEnv) (scraperRules rewriteRules : String)
    (cookies : List (String × String)) (crawler : Bool) :
    List Entry → List Entry × List String
  | [] => ([], [])
  | e :: rest =>
      let r := processEntry p scraperRules rewriteRules cookies crawler e
      let rs := Process p scraperRules rewriteRules cookies crawler rest
      (r.1 :: rs.1, r.2 ++ rs.2)

/-! ## The feed handler (reader/feed): CreateFeed and RefreshFeed -/

/-- Outcome of `client.Get()`: either an error (a `*errors.LocalizedError`
passed through, or a plain transport error that the handler wraps into the
request-failed template) or a response. -/
inductive GetErr where
  | localized (e : LocalizedError)
  | plain (msg : String)
deriving DecidableEq, Repr

/-- How the handler turns a `client.Get()` error into the error it persists
and returns: a localized error is used as is, anything else is wrapped in
the request-failed template. -/
def GetErr.toLocalized : GetErr → LocalizedError
  | .localized e => e
  | .plain msg => .requestFailed msg

/-- Modelled from the spec: the outcome of a successful `client.Get()`
call. The response classification predicates (`IsNotFound`,
`HasServerFailure`, `IsModified` relative to the supplied caching tokens)
and `NormalizeBodyEncoding` live in the http client collaborator (not under
src/), so they are oracle fields here; `contentLength` is `-1` when no
Content-Length header was sent. `normalizedBody` is the result of
`NormalizeBodyEncoding`: a failure cause on the left or the normalized body
on the right. -/
structure Response where
  statusCode : Int
  effectiveURL : String
  contentLength : Int
  etag : String
  lastModified : String
  respIsNotFound : Bool
  respHasServerFailure : Bool
  respIsModified : Bool
  normalizedBody : Sum String String

/-- One call made to the storage collaborator, with the data it persists:
`updateFeed` carries the full record written by `Storage.UpdateFeed`
(storage/feed.go writes every column of the record), `updateEntries`
mirrors `Storage.UpdateEntries(userID, feedID, entries, updateExisting)`,
`createFeed` carries the new row and its entries, and `createFeedIcon`
records icon creation for a feed. -/
inductive StoreCall where
  | updateFeed (f : Feed)
  | updateEntries (userID feedID : Int) (entries : List Entry) (updateExisting : Bool)
  | createFeed (f : Feed) (entries : List Entry)
  | createFeedIcon (feedID : Int)
deriving DecidableEq, Repr

/-- The environment of one `Handler.RefreshFeed(userID, feedID)`
invocation: the identifiers, the oracle outcomes of every collaborator
call, and the current time. `userLanguage` is the result of
`store.UserLanguage` (error cause on the left); `feedByID` is the result of
`store.FeedByID` (storage error on the left, `none` for no row);
`parseResult` is the outcome of `parseFeed` on the normalized body (parse
error message on the left, the parsed entries on the right);
`updateEntriesResult` and `updateFeedResult` are the storage errors of the
corresponding calls, and `hasIcon`/`iconFindOk` drive the icon branch. -/
structure RefreshEnv where
  userID : Int
  feedID : Int
  userLanguage : Sum String String
  feedByID : Sum String (Option Feed)
  fetchResult : Sum GetErr Response
  parseResult : Sum String (List Entry)
  proc : ProcEnv
  updateEntriesResult : Option String
  hasIcon : Bool
  iconFindOk : Bool
  updateFeedResult : Option String
  now : Int

/-- The language used to localize persisted error messages: the user's
language, falling back to en_US when the language lookup failed. -/
def langOf (env : RefreshEnv) : String :=
  match env.userLanguage with
  | Sum.inl _ => "en_US"
  | Sum.inr l => l

/-- The observable outcome of one refresh invocation: the storage calls in
order, the error value returned to the caller (`none` is Go's nil), and
whether the parser and the processing pipeline were invoked. -/
structure RefreshResult where
  calls : List StoreCall
  error : Option LocalizedError
  parseCalled : Bool
  processCalled : Bool
deriving Repr

/-- Embedding of `Handler.RefreshFeed` (reader/feed handler): load the
record, conditional fetch, failure bookkeeping, the not-modified and
modified paths, and the success tail. The parse-failure branch mirrors the
source exactly: it persists the incremented error counters but executes
`return err` on the stale, nil encoding error — so it returns `none`. -/
def RefreshFeed (env : RefreshEnv) : RefreshResult :=
  let lang := langOf env
  match env.feedByID with
  | Sum.inl msg =>
      { calls := [], error := some (.storageError msg),
        parseCalled := false, processCalled := false }
  | Sum.inr none =>
      { calls := [], error := some (.feedNotFound env.feedID),
        parseCalled := false, processCalled := false }
  | Sum.inr (some originalFeed) =>
    match env.fetchResult with
    | Sum.inl getErr =>
        let customErr := getErr.toLocalized
        let f := { originalFeed with
                   parsingErrorCount := originalFeed.parsingErrorCount + 1
                   parsingErrorMsg := customErr.localize lang }
        { calls := [StoreCall.updateFeed f], error := some customErr,
          parseCalled := false, processCalled := false }
    | Sum.inr response =>
      let feed1 := { originalFeed with checkedAt := env.now }
      if response.respIsNotFound then
        let e := LocalizedError.resourceNotFound
        let f := { feed1 with
                   parsingErrorCount := feed1.parsingErrorCount + 1
                   parsingErrorMsg := e.localize lang }
        { calls := [StoreCall.updateFeed f], error := some e,
          parseCalled := false, processCalled := false }
      else if response.respHasServerFailure then
        let e := LocalizedError.serverFailure response.statusCode
        let f := { feed1 with
                   parsingErrorCount := feed1.parsingErrorCount + 1
                   parsingErrorMsg := e.localize lang }
        { calls := [StoreCall.updateFeed f], error := some e,
          parseCalled := false, processCalled := false }
      else if response.respIsModified then
        if response.contentLength = 0 then
          let e := LocalizedError.emptyFeed
          let f := { feed1 with
                     parsingErrorCount := feed1.parsingErrorCount + 1
                     parsingErrorMsg := e.localize lang }
          { calls := [StoreCall.updateFeed f], error := some e,
            parseCalled := false, processCalled := false }
        else
          match response.normalizedBody with
          | Sum.inl cause =>
              { calls := [], error := some (.encodingError cause),
                parseCalled := false, processCalled := false }
          | Sum.inr _body =>
            match env.parseResult with
            | Sum.inl parseMsg =>
                let pe := LocalizedError.parseError parseMsg
                let f := { feed1 with
                           parsingErrorCount := feed1.parsingErrorCount + 1
                           parsingErrorMsg := pe.localize lang }
                { calls := [StoreCall.updateFeed f], error := none,
                  parseCalled := true, processCalled := false }
            | Sum.inr parsedEntries =>
                let processed :=
                  Process env.proc originalFeed.scraperRules
                    originalFeed.rewriteRules originalFeed.cookies
                    originalFeed.crawler parsedEntries
                let feed2 := { feed1 with
                               etagHeader := response.etag
                               lastModifiedHeader := response.lastModified }
                let mergeCall := StoreCall.updateEntries originalFeed.userID
                  originalFeed.id processed.1 (!originalFeed.crawler)
                match env.updateEntriesResult with
                | some msg =>
                    { calls := [mergeCall], error := some (.storageError msg),
                      parseCalled := true, processCalled := true }
                | none =>
                    let iconCalls :=
                      if !env.hasIcon && env.iconFindOk then
                        [StoreCall.createFeedIcon originalFeed.id]
                      else []
                    let feed3 := { feed2 with
                                   parsingErrorCount := 0
                                   parsingErrorMsg := ""
                                   siteURL := if feed2.siteURL = "" then
                                     feed2.feedURL else feed2.siteURL }
                    { calls := [mergeCall] ++ iconCalls ++ [StoreCall.updateFeed feed3],
                      error := env.updateFeedResult.map LocalizedError.storageError,
                      parseCalled := true, processCalled := true }
      else
        let feed3 := { feed1 with
                       parsingErrorCount := 0
                       parsingErrorMsg := ""
                       siteURL := if feed1.siteURL = "" then
                         feed1.feedURL else feed1.siteURL }
        { calls := [StoreCall.updateFeed feed3],
          error := env.updateFeedResult.map LocalizedError.storageError,
          parseCalled := false, processCalled := false }

/-- The environment of one `Handler.CreateFeed(userID, categoryID, url,
crawler, username, password)` invocation: the caller's arguments and the
oracle outcomes of every collaborator call. `parseResult` carries the
parsed subscription (a feed record plus its entries) or the parse error
message; `feedURLExists` is `store.FeedURLExists(userID, effectiveURL)`. -/
structure CreateEnv where
  userID : Int
  categoryID : Int
  crawler : Bool
  username : String
  password : String
  categoryExists : Bool
  fetchResult : Sum GetErr Response
  feedURLExists : String → Bool
  parseResult : Sum String (Feed × List Entry)
  proc : ProcEnv
  createFeedResult : Option String
  iconFindOk : Bool

/-- The observable outcome of one create invocation: the storage calls in
order, the returned subscription (when any) and the returned error. -/
structure CreateResult where
  calls : List StoreCall
  created : Option Feed
  error : Option LocalizedError
deriving Repr

/-- Embedding of `Handler.CreateFeed` (reader/feed handler): category
check, unconditional fetch, response classification, the exact
Content-Length-equals-zero emptiness test, duplicate check on the effective
URL, encoding normalization, parse, processing with the caller's crawler
flag (fresh processor: empty rules and cookies), ownership field
assignment, persistence and best-effort icon discovery. -/
def CreateFeed (env : CreateEnv) : CreateResult :=
  if !env.categoryExists then
    { calls := [], created := none, error := some .categoryNotFound }
  else
    match env.fetchResult with
    | Sum.inl getErr =>
        { calls := [], created := none, error := some getErr.toLocalized }
    | Sum.inr response =>
      if response.respHasServerFailure then
        { calls := [], created := none,
          error := some (.serverFailure response.statusCode) }
      else if response.contentLength = 0 then
        { calls := [], created := none, error := some .emptyFeed }
      else if env.feedURLExists response.effectiveURL then
        { calls := [], created := none,
          error := some (.duplicateFeed response.effectiveURL) }
      else
        match response.normalizedBody with
        | Sum.inl cause =>
            { calls := [], created := none,
              error := some (.encodingError cause) }
        | Sum.inr _body =>
          match env.parseResult with
          | Sum.inl parseMsg =>
              { calls := [], created := none,
                error := some (.parseError parseMsg) }
          | Sum.inr (subscription, entries) =>
              let processed := (Process env.proc "" "" [] env.crawler entries).1
              let s1 := { subscription with
                          categoryID := env.categoryID
                          etagHeader := response.etag
                          lastModifiedHeader := response.lastModified
                          feedURL := response.effectiveURL
                          userID := env.userID
                          crawler := env.crawler
                          username := env.username
                          password := env.password }
              let s2 := if s1.siteURL = "" then { s1 with siteURL := s1.feedURL }
                        else s1
              match env.createFeedResult with
              | some msg =>
                  { calls := [StoreCall.createFeed s2 processed],
                    created := none, error := some (.storageError msg) }
              | none =>
                  let iconCalls :=
                    if env.iconFindOk then [StoreCall.createFeedIcon s2.id]
                    else []
                  { calls := [StoreCall.createFeed s2 processed] ++ iconCalls,
                    created := some s2, error := none }

/-! ## Sample data for the concrete witnesses -/

/-- A sample stored feed record used by the concrete witnesses. -/
def sampleFeed : Feed :=
  { id := 42
    userID := 7
    feedURL := "http://example.org/feed.xml"
    siteURL := "http://example.org"
    title := "Example"
    etagHeader := "etag-1"
    lastModifiedHeader := "lm-1"
    checkedAt := 100
    parsingErrorCount := 3
    parsingErrorMsg := "old failure"
    scraperRules := "article"
    rewriteRules := "rw"
    cookies := [("sid", "abc")]
    crawler := true
    username := "u"
    password := "p"
    categoryID := 5 }

/-- A processing environment with concrete collaborators used by the
witnesses: one already-known URL, a fetch oracle that fails on one marked
URL, and tagging rewrite and sanitize collaborators. -/
def sampleProc : ProcEnv :=
  { entryURLExists := fun u => u == "http://example.org/known"
    scrapeFetch := fun u _ _ =>
      if u == "http://example.org/bad" then none else some ("crawled:" ++ u)
    rewrite := fun _ c r => "rw(" ++ r ++ "):" ++ c
    sanitize := fun _ c => "san:" ++ c }

/-- A successful, modified response used by the concrete witnesses. -/
def sampleResponse : Response :=
  { statusCode := 200
    effectiveURL := "http://example.org/feed.xml"
    contentLength := 512
    etag := "etag-2"
    lastModified := "lm-2"
    respIsNotFound := false
    respHasServerFailure := false
    respIsModified := true
    normalizedBody := Sum.inr "<rss/>" }

/-- A refresh environment used by the concrete witnesses, refreshing
`sampleFeed` with every collaborator succeeding. -/
def sampleRefreshEnv : RefreshEnv :=
  { userID := 7
    feedID := 42
    userLanguage := Sum.inr "fr_FR"
    feedByID := Sum.inr (some sampleFeed)
    fetchResult := Sum.inr sampleResponse
    parseResult := Sum.inr [⟨"http://example.org/known", "summary1"⟩,
                            ⟨"http://example.org/new", "summary2"⟩]
    proc := sampleProc
    updateEntriesResult := none
    hasIcon := true
    iconFindOk := false
    updateFeedResult := none
    now := 500 }

/-- A refresh environment whose fetch reports a not-modified response. -/
def notModifiedEnv : RefreshEnv :=
  { sampleRefreshEnv with
    fetchResult := Sum.inr { sampleResponse with respIsModified := false } }

/-- A refresh environment whose parse step fails. -/
def parseFailEnv : RefreshEnv :=
  { sampleRefreshEnv with
    parseResult := Sum.inl "feed format not recognized" }

/-- A refresh environment whose body-encoding normalization fails. -/
def encodingFailEnv : RefreshEnv :=
  { sampleRefreshEnv with
    fetchResult := Sum.inr
      { sampleResponse with normalizedBody := Sum.inl "bad charset" } }

/-- A refresh environment whose fetch yields a 404 response. -/
def notFoundEnv : RefreshEnv :=
  { sampleRefreshEnv with
    fetchResult := Sum.inr
      { sampleResponse with statusCode := 404, respIsNotFound := true } }

/-- A refresh environment whose fetch fails at the transport level. -/
def transportFailEnv : RefreshEnv :=
  { sampleRefreshEnv with
    fetchResult := Sum.inl (GetErr.plain "connection refused") }

/-- A refresh environment whose response declares a zero Content-Length. -/
def emptyRefreshEnv : RefreshEnv :=
  { sampleRefreshEnv with
    fetchResult := Sum.inr { sampleResponse with contentLength := 0 } }

/-- A create environment whose response declares a zero Content-Length. -/
def emptyCreateEnv : CreateEnv :=
  { userID := 7
    categoryID := 5
    crawler := false
    username := "u"
    password := "p"
    categoryExists := true
    fetchResult := Sum.inr { sampleResponse with contentLength := 0 }
    feedURLExists := fun _ => false
    parseResult := Sum.inl "unused"
    proc := sampleProc
    createFeedResult := none
    iconFindOk := false }

/-- A create environment whose response carries no Content-Length header,
represented by the value -1. -/
def noLengthCreateEnv : CreateEnv :=
  { emptyCreateEnv with
    fetchResult := Sum.inr { sampleResponse with contentLength := -1 } }

end Miniflux

namespace Miniflux

/-! ## Theorems -/

/-- Shared helper: the scraper accumulation loop started from any
accumulator appends the ordered fragment concatenation to it. -/
theorem scrapContent_foldl_acc (l : List DomNode) (acc : String) :
    l.foldl
      (fun contents s =>
        contents ++
          (if s.tag = "img" ∨ s.tag = "iframe" then s.parentInnerHTML
           else s.innerHTML))
      acc = acc ++ specScrapedOutput l := by
  induction l generalizing acc with
  | nil => simp [specScrapedOutput]
  | cons s rest ih =>
      simp [specScrapedOutput, ih, DomNode.specFragment, String.append_assoc]

/-- C7: for a selector rule matching nodes in document order, the scraper
output is the concatenation, in that order and with no separators, of each
node's inner HTML, except that image and embedded-frame nodes contribute
the parent's inner HTML instead. -/
theorem scrapContent_ordered_fragments (matched : List DomNode) :
    scrapContent matched = specScrapedOutput matched := by
  simpa using scrapContent_foldl_acc matched ""

/-- C8 counterexample: ranging over the predefined-rule table in two
different enumeration orders of the same map can return two different
rules for the same URL, because the URL's host can contain two distinct
domain keys; so the lookup over the unordered Go map is not deterministic
as stated. -/
theorem predefined_lookup_not_order_independent :
    ¬ (∀ (t1 t2 : List (String × String)), t1.Perm t2 →
        ∀ url : String,
          getPredefinedScraperRules t1 url = getPredefinedScraperRules t2 url) := by
  intro h
  have hperm : ([("a.com", "r1"), ("b.a.com", "r2")] :
      List (String × String)).Perm [("b.a.com", "r2"), ("a.com", "r1")] :=
    List.Perm.swap _ _ _
  have h2 := h _ _ hperm "http://b.a.com/x"
  exact absurd h2 (by decide)

/-- C8 amended: with the table modelled as a fixed ordered list of
(domain, rule) pairs — the representation the spec prescribes for the
unordered source map — the lookup is a deterministic function of the table
and URL, returning the rule of the first entry in that order whose domain
key is contained in the URL's host, and the empty string when no entry
matches. -/
theorem predefined_lookup_first_match (t : List (String × String)) (url : String) :
    getPredefinedScraperRules t url =
      ((t.find? (fun p => strContains (urlDomainOf url) p.1)).map Prod.snd).getD "" := by
  induction t with
  | nil => rfl
  | cons p rest ih =>
      obtain ⟨d, r⟩ := p
      by_cases h : strContains (urlDomainOf url) d = true
      · simp [getPredefinedScraperRules, List.find?, h]
      · simp only [Bool.not_eq_true] at h
        simp [getPredefinedScraperRules, List.find?, h, ih]

/-- C10: merging any submitted edit form into any feed always sets
`parsingErrorCount` to 0 and `parsingErrorMsg` to the empty string,
regardless of the form's contents, so both error fields are cleared
together by every successful feed edit. -/
theorem Merge_clears_error_state (f : FeedForm) (feed : Feed) :
    (f.Merge feed).parsingErrorCount = 0 ∧ (f.Merge feed).parsingErrorMsg = "" :=
  ⟨rfl, rfl⟩

/-- Shared helper: a crawl fetch is only ever issued for an entry whose URL
does not already exist for the user, and only for that entry's own URL. -/
theorem processEntry_fetched (p : ProcEnv) (sr rr : String)
    (ck : List (String × String)) (crawler : Bool) (e : Entry) :
    ∀ u ∈ (processEntry p sr rr ck crawler e).2,
      p.entryURLExists u = false ∧ u = e.url := by
  intro u hu
  cases crawler with
  | false => simp [processEntry] at hu
  | true =>
      cases hex : p.entryURLExists e.url with
      | true => simp [processEntry, hex] at hu
      | false =>
          cases hf : p.scrapeFetch e.url sr ck with
          | none =>
              simp [processEntry, hex, hf] at hu
              exact ⟨hu ▸ hex, hu⟩
          | some c =>
              simp [processEntry, hex, hf] at hu
              exact ⟨hu ▸ hex, hu⟩

/-- Shared helper: the batch output is the per-entry map, and every fetched
URL comes from one of the per-entry steps. -/
theorem Process_eq_map (p : ProcEnv) (sr rr : String)
    (ck : List (String × String)) (crawler : Bool) (entries : List Entry) :
    (Process p sr rr ck crawler entries).1 =
      entries.map (fun e => (processEntry p sr rr ck crawler e).1) ∧
    ∀ u ∈ (Process p sr rr ck crawler entries).2, ∃ e ∈ entries,
      u ∈ (processEntry p sr rr ck crawler e).2 := by
  induction entries with
  | nil => exact ⟨rfl, by simp [Process]⟩
  | cons e rest ih =>
      refine ⟨by simp [Process, ih.1], ?_⟩
      intro u hu
      simp only [Process, List.mem_append] at hu
      rcases hu with hu | hu
      · exact ⟨e, List.mem_cons_self e rest, hu⟩
      · obtain ⟨e2, he2, hu2⟩ := ih.2 u hu
        exact ⟨e2, List.mem_cons_of_mem e he2, hu2⟩

/-- C3: with the crawler enabled, an entry whose URL already exists for the
user triggers no fetch and keeps its existing content as the input of the
transforms; and for every entry — crawled, skipped or failed — the rewrite
collaborator is applied to the content and the sanitizer is applied after
it, sanitize last; at batch level, no crawl fetch is ever issued for a URL
that already exists for the user. -/
theorem Process_crawl_dedup_and_transform_order (p : ProcEnv) (sr rr : String)
    (ck : List (String × String)) (entries : List Entry) :
    (∀ u ∈ (Process p sr rr ck true entries).2, p.entryURLExists u = false) ∧
    (∀ e : Entry, p.entryURLExists e.url = true →
      (processEntry p sr rr ck true e).2 = [] ∧
      (processEntry p sr rr ck true e).1.content =
        p.sanitize e.url (p.rewrite e.url e.content rr)) ∧
    (∀ e : Entry, ∃ c : String,
      (processEntry p sr rr ck true e).1.content =
        p.sanitize e.url (p.rewrite e.url c rr)) ∧
    (Process p sr rr ck true entries).1 =
      entries.map (fun e => (processEntry p sr rr ck true e).1) := by
  refine ⟨?_, ?_, ?_, (Process_eq_map p sr rr ck true entries).1⟩
  · intro u hu
    obtain ⟨e, _, hue⟩ := (Process_eq_map p sr rr ck true entries).2 u hu
    exact (processEntry_fetched p sr rr ck true e u hue).1
  · intro e hex
    constructor
    · cases hf : (processEntry p sr rr ck true e).2 with
      | nil => rfl
      | cons u us =>
          have := processEntry_fetched p sr rr ck true e u (by simp [hf])
          rw [this.2] at this
          exact absurd hex (by simp [this.1])
    · simp [processEntry, hex]
  · intro e
    cases hcx : p.entryURLExists e.url with
    | true => exact ⟨e.content, by simp [processEntry, hcx]⟩
    | false =>
        cases hf : p.scrapeFetch e.url sr ck with
        | none => exact ⟨e.content, by simp [processEntry, hcx, hf]⟩
        | some c => exact ⟨c, by simp [processEntry, hcx, hf]⟩

/-- C3 witness: concrete run on an already-known URL — no fetch is issued
and the stored content flows through rewrite then sanitize. -/
theorem Process_crawl_dedup_witness :
    (processEntry sampleProc "article" "rw" [("sid", "abc")] true
      ⟨"http://example.org/known", "orig"⟩).2 = [] ∧
    (processEntry sampleProc "article" "rw" [("sid", "abc")] true
      ⟨"http://example.org/known", "orig"⟩).1.content = "san:rw(rw):orig" := by
  have h := (Process_crawl_dedup_and_transform_order sampleProc "article" "rw"
    [("sid", "abc")] []).2.1 ⟨"http://example.org/known", "orig"⟩ (by decide)
  exact ⟨h.1, h.2.trans (by decide)⟩

/-- C2: when the fetch succeeds and reports not modified, the refresh makes
exactly one feed-persistence call, persisting the loaded record with
`parsingErrorCount` reset to 0, `parsingErrorMsg` cleared, `checkedAt` set
to the current time (and `siteURL` defaulted to `feedURL` only when it was
empty), and neither the parser nor the entry pipeline runs, so no entry
content is touched. -/
theorem refresh_not_modified_resets_and_persists_once (env : RefreshEnv)
    (loaded : Feed) (resp : Response)
    (hfeed : env.feedByID = Sum.inr (some loaded))
    (hfetch : env.fetchResult = Sum.inr resp)
    (h404 : resp.respIsNotFound = false)
    (hsrv : resp.respHasServerFailure = false)
    (hmod : resp.respIsModified = false) :
    (RefreshFeed env).calls =
      [StoreCall.updateFeed { loaded with
        checkedAt := env.now
        parsingErrorCount := 0
        parsingErrorMsg := ""
        siteURL := if loaded.siteURL = "" then loaded.feedURL else loaded.siteURL }] ∧
    (RefreshFeed env).parseCalled = false ∧
    (RefreshFeed env).processCalled = false := by
  unfold RefreshFeed
  rw [hfeed, hfetch]
  simp [h404, hsrv, hmod]

/-- C2 witness: a concrete not-modified refresh of the sample feed performs
the single expected persistence call and skips parse and processing. -/
theorem refresh_not_modified_witness :
    (RefreshFeed notModifiedEnv).calls =
      [StoreCall.updateFeed { sampleFeed with
        checkedAt := 500
        parsingErrorCount := 0
        parsingErrorMsg := "" }] ∧
    (RefreshFeed notModifiedEnv).parseCalled = false ∧
    (RefreshFeed notModifiedEnv).processCalled = false := by
  have h := refresh_not_modified_resets_and_persists_once notModifiedEnv
    sampleFeed { sampleResponse with respIsModified := false } rfl rfl rfl rfl rfl
  refine ⟨h.1.trans (by decide), h.2.1, h.2.2⟩

/-- C1: at a concrete refresh whose fetch succeeds with a modified,
non-empty, well-encoded body but whose parse fails, the handler persists
the failure onto the feed row (`parsingErrorCount` incremented,
`parsingErrorMsg` overwritten with the localized parse error) yet returns
Go's nil error: the source executes `return err` on the stale nil error of
the encoding step instead of returning `parseErr`, contradicting its
sibling failure paths and the documented propagation policy. -/
theorem refresh_parse_failure_persists_but_returns_nil :
    (RefreshFeed parseFailEnv).error = none ∧
    (RefreshFeed parseFailEnv).parseCalled = true ∧
    (RefreshFeed parseFailEnv).calls =
      [StoreCall.updateFeed { sampleFeed with
        checkedAt := 500
        parsingErrorCount := 4
        parsingErrorMsg :=
          (LocalizedError.parseError "feed format not recognized").localize "fr_FR" }] := by
  refine ⟨rfl, rfl, by decide⟩

/-- C6: when body-encoding normalization fails during a refresh that
reached the modified path, the handler returns the encoding error without
making any storage call at all — in particular the feed row is not
persisted and `parsingErrorCount`/`parsingErrorMsg` are not updated in
storage, unlike every sibling failure path. -/
theorem refresh_encoding_failure_returns_without_persisting (env : RefreshEnv)
    (loaded : Feed) (resp : Response) (cause : String)
    (hfeed : env.feedByID = Sum.inr (some loaded))
    (hfetch : env.fetchResult = Sum.inr resp)
    (h404 : resp.respIsNotFound = false)
    (hsrv : resp.respHasServerFailure = false)
    (hmod : resp.respIsModified = true)
    (hcl : ¬ resp.contentLength = 0)
    (henc : resp.normalizedBody = Sum.inl cause) :
    (RefreshFeed env).calls = [] ∧
    (RefreshFeed env).error = some (.encodingError cause) := by
  unfold RefreshFeed
  rw [hfeed, hfetch]
  simp [h404, hsrv, hmod, hcl, henc]

/-- C6 witness: a concrete refresh with a failing encoding normalization
makes no storage call and returns the encoding error. -/
theorem refresh_encoding_failure_witness :
    (RefreshFeed encodingFailEnv).calls = [] ∧
    (RefreshFeed encodingFailEnv).error =
      some (.encodingError "bad charset") := by
  exact refresh_encoding_failure_returns_without_persisting encodingFailEnv
    sampleFeed { sampleResponse with normalizedBody := Sum.inl "bad charset" }
    "bad charset" rfl rfl rfl rfl rfl (by decide) rfl

/-- C9 counterexample: at a concrete refresh whose fetch yields a 404, the
persisted feed record also differs from the loaded record in `checkedAt`
(set to the current time before the 404 check), so it does not differ only
in `parsingErrorCount` and `parsingErrorMsg` as claimed. -/
theorem refresh_404_changes_checkedAt :
    ¬ (∀ f : Feed, StoreCall.updateFeed f ∈ (RefreshFeed notFoundEnv).calls →
        f.checkedAt = sampleFeed.checkedAt) := by
  intro h
  have hf := h { sampleFeed with
    checkedAt := 500
    parsingErrorCount := 4
    parsingErrorMsg := LocalizedError.resourceNotFound.localize "fr_FR" }
    (by decide)
  exact absurd hf (by decide)

/-- C9 amended: on a fetch failure the persisted record differs from the
loaded record only in `parsingErrorCount` (incremented by one) and
`parsingErrorMsg` (the localized failure message) for transport failures;
for 404 and server-failure responses `checkedAt` is additionally set to the
current time; every other field, including the caching tokens and siteURL,
is persisted unchanged, and the failure is returned to the caller. -/
theorem refresh_fetch_failure_frame (env : RefreshEnv) (loaded : Feed)
    (hfeed : env.feedByID = Sum.inr (some loaded)) :
    (∀ e : GetErr, env.fetchResult = Sum.inl e →
      (RefreshFeed env).calls =
        [StoreCall.updateFeed { loaded with
          parsingErrorCount := loaded.parsingErrorCount + 1
          parsingErrorMsg := e.toLocalized.localize (langOf env) }] ∧
      (RefreshFeed env).error = some e.toLocalized) ∧
    (∀ resp : Response, env.fetchResult = Sum.inr resp →
      resp.respIsNotFound = true →
      (RefreshFeed env).calls =
        [StoreCall.updateFeed { loaded with
          checkedAt := env.now
          parsingErrorCount := loaded.parsingErrorCount + 1
          parsingErrorMsg := LocalizedError.resourceNotFound.localize (langOf env) }] ∧
      (RefreshFeed env).error = some .resourceNotFound) ∧
    (∀ resp : Response, env.fetchResult = Sum.inr resp →
      resp.respIsNotFound = false → resp.respHasServerFailure = true →
      (RefreshFeed env).calls =
        [StoreCall.updateFeed { loaded with
          checkedAt := env.now
          parsingErrorCount := loaded.parsingErrorCount + 1
          parsingErrorMsg :=
            (LocalizedError.serverFailure resp.statusCode).localize (langOf env) }] ∧
      (RefreshFeed env).error = some (.serverFailure resp.statusCode)) := by
  refine ⟨?_, ?_, ?_⟩
  · intro e he
    unfold RefreshFeed
    rw [hfeed, he]
    simp
  · intro resp hre h404
    unfold RefreshFeed
    rw [hfeed, hre]
    simp [h404]
  · intro resp hre h404 hsrv
    unfold RefreshFeed
    rw [hfeed, hre]
    simp [h404, hsrv]

/-- C9 witness: a concrete transport failure persists the loaded record
with only the error fields changed — `checkedAt` keeps its loaded value —
and returns the wrapped request failure. -/
theorem refresh_fetch_failure_frame_witness :
    (RefreshFeed transportFailEnv).calls =
      [StoreCall.updateFeed { sampleFeed with
        parsingErrorCount := 4
        parsingErrorMsg :=
          (LocalizedError.requestFailed "connection refused").localize "fr_FR" }] ∧
    (RefreshFeed transportFailEnv).error =
      some (.requestFailed "connection refused") := by
  have h := (refresh_fetch_failure_frame transportFailEnv sampleFeed rfl).1
    (GetErr.plain "connection refused") rfl
  exact ⟨h.1.trans (by decide), h.2⟩

/-- C4: every refresh reaching the modified path with a successful parse
makes the entry-merge storage call with the overwrite-existing flag equal
to the logical NOT of the stored crawler flag — on the processed entries,
for the feed's own user and id — and every entry-merge call of the
invocation carries that flag. -/
theorem refresh_merge_flag_is_not_crawler (env : RefreshEnv) (loaded : Feed)
    (resp : Response) (entries : List Entry) (body : String)
    (hfeed : env.feedByID = Sum.inr (some loaded))
    (hfetch : env.fetchResult = Sum.inr resp)
    (h404 : resp.respIsNotFound = false)
    (hsrv : resp.respHasServerFailure = false)
    (hmod : resp.respIsModified = true)
    (hcl : ¬ resp.contentLength = 0)
    (hbody : resp.normalizedBody = Sum.inr body)
    (hparse : env.parseResult = Sum.inr entries) :
    StoreCall.updateEntries loaded.userID loaded.id
      (Process env.proc loaded.scraperRules loaded.rewriteRules loaded.cookies
        loaded.crawler entries).1 (!loaded.crawler) ∈ (RefreshFeed env).calls ∧
    (∀ (u i : Int) (es : List Entry) (b : Bool),
      StoreCall.updateEntries u i es b ∈ (RefreshFeed env).calls →
      b = !loaded.crawler) := by
  unfold RefreshFeed
  rw [hfeed, hfetch]
  cases hue : env.updateEntriesResult with
  | some msg =>
      simp only [h404, hsrv, hmod, hcl, hbody, hparse, hue]
      simp only [Bool.false_eq_true, if_false, if_neg, if_true, ite_false]
      constructor
      · simp [hcl]
      · intro u i es b hmem
        simp [hcl] at hmem
        exact hmem.2.2.2
  | none =>
      simp only [h404, hsrv, hmod, hcl, hbody, hparse, hue]
      constructor
      · simp [hcl]
      · intro u i es b hmem
        by_cases hic : (!env.hasIcon && env.iconFindOk) = true
        · simp [hcl, hic] at hmem
          exact hmem.2.2.2
        · simp [hcl, hic] at hmem
          exact hmem.2.2.2

/-- C4 witness: the concrete successful refresh of the sample crawler feed
issues its entry-merge call with overwrite-existing equal to false. -/
theorem refresh_merge_flag_witness :
    StoreCall.updateEntries 7 42
      (Process sampleProc "article" "rw" [("sid", "abc")] true
        [⟨"http://example.org/known", "summary1"⟩,
         ⟨"http://example.org/new", "summary2"⟩]).1 false
      ∈ (RefreshFeed sampleRefreshEnv).calls := by
  have h := (refresh_merge_flag_is_not_crawler sampleRefreshEnv sampleFeed
    sampleResponse
    [⟨"http://example.org/known", "summary1"⟩,
     ⟨"http://example.org/new", "summary2"⟩]
    "<rss/>" rfl rfl rfl rfl rfl (by decide) rfl rfl).1
  exact h

/-- C5: given a fetch success that passed the failure classification, the
create flow returns the EmptyFeed error exactly when the response declares
a Content-Length of zero (so the absent-header value -1 is not empty), and
on that error it makes no storage call, so no feed row is created; the
refresh flow, on its modified path, likewise returns EmptyFeed exactly when
the declared Content-Length is zero. -/
theorem emptiness_is_exactly_content_length_zero
    (cenv : CreateEnv) (renv : RefreshEnv) (respC respR : Response) (loaded : Feed)
    (hcat : cenv.categoryExists = true)
    (hfc : cenv.fetchResult = Sum.inr respC)
    (hsc : respC.respHasServerFailure = false)
    (hfeed : renv.feedByID = Sum.inr (some loaded))
    (hfr : renv.fetchResult = Sum.inr respR)
    (h404 : respR.respIsNotFound = false)
    (hsr : respR.respHasServerFailure = false)
    (hmr : respR.respIsModified = true) :
    ((CreateFeed cenv).error = some .emptyFeed ↔ respC.contentLength = 0) ∧
    (respC.contentLength = 0 → (CreateFeed cenv).calls = []) ∧
    ((RefreshFeed renv).error = some .emptyFeed ↔ respR.contentLength = 0) := by
  refine ⟨⟨?_, ?_⟩, ?_, ⟨?_, ?_⟩⟩
  · intro h
    by_contra hcl
    unfold CreateFeed at h
    rw [hfc] at h
    simp only [hcat, hsc, hcl] at h
    cases hd : cenv.feedURLExists respC.effectiveURL with
    | true => simp [hd] at h
    | false =>
        cases hnb : respC.normalizedBody with
        | inl cause => simp [hd, hnb] at h
        | inr body =>
            cases hp : cenv.parseResult with
            | inl msg => simp [hd, hnb, hp] at h
            | inr sub =>
                cases hc : cenv.createFeedResult with
                | none => simp [hd, hnb, hp, hc] at h
                | some msg => simp [hd, hnb, hp, hc] at h
  · intro hcl
    unfold CreateFeed
    rw [hfc]
    simp [hcat, hsc, hcl]
  · intro hcl
    unfold CreateFeed
    rw [hfc]
    simp [hcat, hsc, hcl]
  · intro h
    by_contra hcl
    unfold RefreshFeed at h
    rw [hfeed, hfr] at h
    simp only [h404, hsr, hmr, hcl] at h
    cases hnb : respR.normalizedBody with
    | inl cause => simp [hnb] at h
    | inr body =>
        cases hp : renv.parseResult with
        | inl msg => simp [hnb, hp] at h
        | inr entries =>
            cases hue : renv.updateEntriesResult with
            | some msg => simp [hnb, hp, hue] at h
            | none => simp [hnb, hp, hue] at h
  · intro hcl
    unfold RefreshFeed
    rw [hfeed, hfr]
    simp [h404, hsr, hmr, hcl]

/-- C5 witness: a concrete create request with Content-Length 0 returns
EmptyFeed and creates nothing; with no Content-Length header (-1) the
result is not EmptyFeed; and a concrete refresh with Content-Length 0
returns EmptyFeed. -/
theorem emptiness_witness :
    (CreateFeed emptyCreateEnv).error = some .emptyFeed ∧
    (CreateFeed emptyCreateEnv).calls = [] ∧
    (CreateFeed noLengthCreateEnv).error ≠ some .emptyFeed ∧
    (RefreshFeed emptyRefreshEnv).error = some .emptyFeed := by
  have h0 := emptiness_is_exactly_content_length_zero emptyCreateEnv
    emptyRefreshEnv { sampleResponse with contentLength := 0 }
    { sampleResponse with contentLength := 0 } sampleFeed
    rfl rfl rfl rfl rfl rfl rfl rfl
  have h1 := emptiness_is_exactly_content_length_zero noLengthCreateEnv
    emptyRefreshEnv { sampleResponse with contentLength := -1 }
    { sampleResponse with contentLength := 0 } sampleFeed
    rfl rfl rfl rfl rfl rfl rfl rfl
  refine ⟨h0.1.mpr rfl, h0.2.1 rfl, ?_, h0.2.2.mpr rfl⟩
  intro hbad
  exact absurd (h1.1.mp hbad) (by decide)

end Miniflux
